import Mathlib

/-!
Shallow embedding of the blimp onboard-software control core
(src/obsw_algo.rs, src/obsw_interface.rs).

Rust machine integers are modelled as Int/Nat with explicit wrapping where
the source performs fixed-width arithmetic (i32 addition in step, the
`as i16` cast on servo locations).  f64 sensor values are modelled as real
numbers; the byte-level serialization of an f64 is kept as an explicit
function parameter (enc64 / dec64), since the structural claims do not
depend on its bit layout.  The postcard wire format used by the source
(varint-encoded u32/usize, zigzag varints for signed integers, one raw byte
per u8, enum discriminants as varint variant indices, length-prefixed byte
vectors) is embedded concretely below.
-/

/-- Two's-complement wrap of an integer into the i32 range, the value a Rust
i32 holds after wrapping arithmetic. -/
def wrap32 (v : Int) : Int :=
  (v + 2 ^ 31) % 2 ^ 32 - 2 ^ 31

/-- Two's-complement wrap of an integer into the i16 range; Rust's `as i16`
cast of an i32 keeps the low 16 bits and reinterprets them as signed, which
is exactly this function. -/
def wrap16 (v : Int) : Int :=
  (v + 2 ^ 15) % 2 ^ 16 - 2 ^ 15

/-- Zigzag encoding of a signed integer as postcard applies it before
varint-encoding (0, -1, 1, -2, ... become 0, 1, 2, 3, ...). -/
def zig (v : Int) : Nat :=
  (if 0 ≤ v then 2 * v else -2 * v - 1).toNat

/-- Inverse of the zigzag encoding. -/
def unzig (n : Nat) : Int :=
  if n % 2 = 0 then (n / 2 : Nat) else -((n / 2 : Nat) : Int) - 1

/-- LEB128 varint encoding: little-endian 7-bit groups, continuation bit
0x80 on every byte but the last. -/
def encVarint (n : Nat) : List Nat :=
  if _h : n < 128 then [n] else (n % 128 + 128) :: encVarint (n / 128)
termination_by n
decreasing_by exact Nat.div_lt_self (by omega) (by omega)

/-- Varint decoding loop as postcard implements it: at most maxI bytes, the
final byte of a maximal-length varint must not exceed lastMax, and the
accumulated value wraps at the target width M (M = 2 ^ 32 for u32, etc.).
Returns the decoded value and the remaining bytes. -/
def decVarintAux (maxI lastMax M : Nat) : Nat → Nat → List Nat → Option (Nat × List Nat)
  | _, _, [] => none
  | i, acc, b :: rest =>
    let acc2 := (acc + b % 128 * 2 ^ (7 * i)) % M
    if b < 128 then
      if i + 1 = maxI ∧ lastMax < b then none else some (acc2, rest)
    else if i + 1 = maxI then none
    else decVarintAux maxI lastMax M (i + 1) acc2 rest

/-- postcard varint decode of a u32 (at most 5 bytes, last byte at most 0x0F). -/
def decU32 : List Nat → Option (Nat × List Nat) :=
  decVarintAux 5 15 (2 ^ 32) 0 0

/-- postcard varint decode of a u16 (at most 3 bytes, last byte at most 0x03). -/
def decU16 : List Nat → Option (Nat × List Nat) :=
  decVarintAux 3 3 (2 ^ 16) 0 0

/-- postcard varint decode of a u64/usize (at most 10 bytes, last byte at most 1). -/
def decU64 : List Nat → Option (Nat × List Nat) :=
  decVarintAux 10 1 (2 ^ 64) 0 0

/-- postcard decode of an i32: varint u32 then un-zigzag. -/
def decI32 (bs : List Nat) : Option (Int × List Nat) :=
  (decU32 bs).map fun p => (unzig p.1, p.2)

/-- postcard decode of an i16: varint u16 then un-zigzag. -/
def decI16 (bs : List Nat) : Option (Int × List Nat) :=
  (decU16 bs).map fun p => (unzig p.1, p.2)

/-- postcard decode of a u8: one raw byte. -/
def decByte : List Nat → Option (Nat × List Nat)
  | [] => none
  | b :: r => some (b, r)

/-- postcard decode of a byte vector: varint length then that many raw bytes. -/
def decBytes (bs : List Nat) : Option (List Nat × List Nat) :=
  match decU64 bs with
  | none => none
  | some (len, r) => if len ≤ r.length then some (r.take len, r.drop len) else none

/-- The pilot-input axes (struct Controls of the source): three i32 fields. -/
structure Controls where
  throttle : Int
  elevation : Int
  yaw : Int
  deriving DecidableEq

/-- Output alphabet of the controller (enum BlimpAction of the source):
servo u8 / location i16, motor u8 / speed i32, or an outbound byte buffer. -/
inductive BlimpAction where
  | SetServo (servo : Nat) (location : Int)
  | SetMotor (motor : Nat) (speed : Int)
  | SendMsg (bytes : List Nat)
  deriving DecidableEq

/-- Sensor tags (enum SensorType of the source). -/
inductive SensorType where
  | Barometer
  | GPSLatitude
  | GPSLongitude
  | GPSAltitude
  deriving DecidableEq

/-- Input alphabet of the controller (enum BlimpEvent of the source); the
f64 payload of SensorDataF64 is modelled as a real number. -/
inductive BlimpEvent where
  | Control (ctrl : Controls)
  | GetMsg (msg : List Nat)
  | SensorDataF64 (sensor : SensorType) (value : ℝ)

/-- Flight modes (enum FlightMode of the source). -/
inductive FlightMode where
  | Manual
  | StabilizeAttiAlti
  deriving DecidableEq

/-- Inbound protocol messages (enum MessageG2B of the source). -/
inductive MessageG2B where
  | Ping (id : Nat)
  | Pong (id : Nat)
  | Control (ctrl : Controls)
  deriving DecidableEq

/-- Outbound protocol messages (enum MessageB2G of the source). -/
inductive MessageB2G where
  | Ping (id : Nat)
  | Pong (id : Nat)
  | ForwardAction (action : BlimpAction)
  | ForwardEvent (event : BlimpEvent)

/-- postcard encoding of the Controls struct: three zigzag-varint i32 fields
in declaration order. -/
def encControls (c : Controls) : List Nat :=
  encVarint (zig (wrap32 c.throttle)) ++ encVarint (zig (wrap32 c.elevation)) ++
    encVarint (zig (wrap32 c.yaw))

/-- postcard encoding of a BlimpAction (variant index as varint, then the
fields; a u8 is one raw byte, an i16/i32 a zigzag varint, a byte vector is
length-prefixed). -/
def encAction : BlimpAction → List Nat
  | .SetServo servo location => 0 :: servo % 256 :: encVarint (zig (wrap16 location))
  | .SetMotor motor speed => 1 :: motor % 256 :: encVarint (zig (wrap32 speed))
  | .SendMsg v => 2 :: (encVarint v.length ++ v)

/-- Variant index of a SensorType tag. -/
def encSensorType : SensorType → Nat
  | .Barometer => 0
  | .GPSLatitude => 1
  | .GPSLongitude => 2
  | .GPSAltitude => 3

/-- postcard encoding of a BlimpEvent; enc64 supplies the 8-byte encoding of
an f64 payload. -/
def encEvent (enc64 : ℝ → List Nat) : BlimpEvent → List Nat
  | .Control c => 0 :: encControls c
  | .GetMsg v => 1 :: (encVarint v.length ++ v)
  | .SensorDataF64 t x => 2 :: (encVarint (encSensorType t) ++ enc64 x)

/-- postcard encoding of an outbound MessageB2G (postcard::to_stdvec in the
source). -/
def encodeB2G (enc64 : ℝ → List Nat) : MessageB2G → List Nat
  | .Ping id => 0 :: encVarint id
  | .Pong id => 1 :: encVarint id
  | .ForwardAction a => 2 :: encAction a
  | .ForwardEvent e => 3 :: encEvent enc64 e

/-- postcard decode of a Controls struct. -/
def decControls (bs : List Nat) : Option (Controls × List Nat) :=
  match decI32 bs with
  | none => none
  | some (t, r1) =>
    match decI32 r1 with
    | none => none
    | some (e, r2) =>
      match decI32 r2 with
      | none => none
      | some (y, r3) => some (⟨t, e, y⟩, r3)

/-- postcard decode of an inbound MessageG2B together with the unconsumed
trailing bytes. -/
def decodeG2Bfull (bs : List Nat) : Option (MessageG2B × List Nat) :=
  match decU32 bs with
  | none => none
  | some (0, r) => (decU32 r).map fun p => (.Ping p.1, p.2)
  | some (1, r) => (decU32 r).map fun p => (.Pong p.1, p.2)
  | some (2, r) => (decControls r).map fun p => (.Control p.1, p.2)
  | some _ => none

/-- postcard::from_bytes for MessageG2B as the source calls it: decode a
message from the front of the buffer, ignoring trailing bytes. -/
def decodeG2B (bs : List Nat) : Option MessageG2B :=
  (decodeG2Bfull bs).map Prod.fst

/-- Decode of a SensorType variant index. -/
def decSensorType : Nat → Option SensorType
  | 0 => some .Barometer
  | 1 => some .GPSLatitude
  | 2 => some .GPSLongitude
  | 3 => some .GPSAltitude
  | _ => none

/-- postcard decode of a BlimpAction. -/
def decAction (bs : List Nat) : Option (BlimpAction × List Nat) :=
  match decU32 bs with
  | none => none
  | some (0, r) =>
    match decByte r with
    | none => none
    | some (servo, r1) => (decI16 r1).map fun p => (.SetServo servo p.1, p.2)
  | some (1, r) =>
    match decByte r with
    | none => none
    | some (motor, r1) => (decI32 r1).map fun p => (.SetMotor motor p.1, p.2)
  | some (2, r) => (decBytes r).map fun p => (.SendMsg p.1, p.2)
  | some _ => none

/-- postcard decode of a BlimpEvent; dec64 supplies the decoding of an f64
payload. -/
def decEvent (dec64 : List Nat → Option (ℝ × List Nat)) (bs : List Nat) :
    Option (BlimpEvent × List Nat) :=
  match decU32 bs with
  | none => none
  | some (0, r) => (decControls r).map fun p => (.Control p.1, p.2)
  | some (1, r) => (decBytes r).map fun p => (.GetMsg p.1, p.2)
  | some (2, r) =>
    match decU32 r with
    | none => none
    | some (t, r1) =>
      match decSensorType t with
      | none => none
      | some st => (dec64 r1).map fun p => (.SensorDataF64 st p.1, p.2)
  | some _ => none

/-- postcard decode of an outbound MessageB2G with the unconsumed rest. -/
def decodeB2Gfull (dec64 : List Nat → Option (ℝ × List Nat)) (bs : List Nat) :
    Option (MessageB2G × List Nat) :=
  match decU32 bs with
  | none => none
  | some (0, r) => (decU32 r).map fun p => (.Ping p.1, p.2)
  | some (1, r) => (decU32 r).map fun p => (.Pong p.1, p.2)
  | some (2, r) => (decAction r).map fun p => (.ForwardAction p.1, p.2)
  | some (3, r) => (decEvent dec64 r).map fun p => (.ForwardEvent p.1, p.2)
  | some _ => none

/-- postcard::from_bytes for MessageB2G: decode from the front of the
buffer, ignoring trailing bytes. -/
def decodeB2G (dec64 : List Nat → Option (ℝ × List Nat)) (bs : List Nat) :
    Option MessageB2G :=
  (decodeB2Gfull dec64 bs).map Prod.fst

/-- Barometric altitude formula of the source's Barometer branch:
(ln p0 - ln p) * (R / g / M) * T with p0 = 101325.0, the coefficient
0.0292718 and T = 288.15. -/
noncomputable def baroAltitude (press : ℝ) : ℝ :=
  (Real.log 101325.0 - Real.log press) * 0.0292718 * 288.15

/-- Controller state (struct BlimpMainAlgo of the source).  The stored
egress closure is modelled by the one observable bit the core depends on:
whether a callback is registered; emissions are collected in a list. -/
structure BlimpMainAlgo where
  action_callback : Bool
  curr_flight_mode : FlightMode
  controls : Controls
  altitude : Option ℝ
  gps_location : Option (ℝ × ℝ)

/-- BlimpMainAlgo::new(): no callback, Manual mode, zero controls, no
altitude estimate, no GPS location. -/
def BlimpMainAlgo.new : BlimpMainAlgo :=
  { action_callback := false
    curr_flight_mode := .Manual
    controls := ⟨0, 0, 0⟩
    altitude := none
    gps_location := none }

/-- Recursion measure for handle_event: the only self-call goes from a
GetMsg event to a Control event. -/
def evDepth : BlimpEvent → Nat
  | .GetMsg _ => 1
  | _ => 0

/-- BlimpMainAlgo::handle_event.  Returns the updated state and the list of
actions passed to the egress callback, in invocation order.  The GetMsg /
Control branch re-dispatches through handle_event itself, as the source
does; after the match, any SensorDataF64 event is echoed as a ForwardEvent
telemetry message when a callback is registered. -/
noncomputable def BlimpMainAlgo.handle_event (enc64 : ℝ → List Nat)
    (s : BlimpMainAlgo) (ev : BlimpEvent) : BlimpMainAlgo × List BlimpAction :=
  let main : BlimpMainAlgo × List BlimpAction :=
    match ev with
    | .Control ctrl => ({ s with controls := ctrl }, [])
    | .SensorDataF64 .Barometer press =>
      ({ s with altitude := some (baroAltitude press) }, [])
    | .SensorDataF64 .GPSLatitude latitude =>
      ({ s with gps_location := some (latitude, (s.gps_location.getD (0, 0)).2) }, [])
    | .SensorDataF64 .GPSLongitude longitude =>
      ({ s with gps_location := some ((s.gps_location.getD (0, 0)).1, longitude) }, [])
    | .SensorDataF64 .GPSAltitude _ => (s, [])
    | .GetMsg msg =>
      match decodeG2B msg with
      | some (.Ping id) =>
        (s, if s.action_callback then [.SendMsg (encodeB2G enc64 (.Pong id))] else [])
      | some (.Pong _) => (s, [])
      | some (.Control ctrl) => BlimpMainAlgo.handle_event enc64 s (.Control ctrl)
      | none => (s, [])
  let echo : List BlimpAction :=
    match ev with
    | .SensorDataF64 _ _ =>
      if main.1.action_callback then [.SendMsg (encodeB2G enc64 (.ForwardEvent ev))] else []
    | _ => []
  (main.1, main.2 ++ echo)
termination_by evDepth ev
decreasing_by simp [evDepth]

/-- BlimpMainAlgo::perform_action: invoke the callback with the action and,
when it is an actuator action (SetMotor or SetServo), also with a SendMsg
carrying the encoded ForwardAction telemetry message. -/
def BlimpMainAlgo.perform_action (enc64 : ℝ → List Nat) (action : BlimpAction) :
    List BlimpAction :=
  action ::
    match action with
    | .SetMotor _ _ | .SetServo _ _ => [.SendMsg (encodeB2G enc64 (.ForwardAction action))]
    | .SendMsg _ => []

/-- BlimpMainAlgo::step.  In Manual mode with a registered callback, for
each motor index i in 0..4: the motor speed is the (wrapping) i32 sum
throttle + (1 if i is even else -1) * yaw + elevation, then the vertical
servo 2*i gets the elevation and the lateral servo 2*i+1 the yaw, both cast
to i16; each actuator action goes through perform_action.  Without a
callback, or in StabilizeAttiAlti mode, nothing is emitted. -/
def BlimpMainAlgo.step (enc64 : ℝ → List Nat) (s : BlimpMainAlgo) : List BlimpAction :=
  match s.curr_flight_mode with
  | .Manual =>
    if s.action_callback then
      (List.range 4).flatMap fun i =>
        let speed : Int := wrap32 (s.controls.throttle +
          (if i % 2 = 0 then 1 else -1) * s.controls.yaw + s.controls.elevation)
        BlimpMainAlgo.perform_action enc64 (.SetMotor i speed) ++
          BlimpMainAlgo.perform_action enc64
            (.SetServo (2 * i) (wrap16 s.controls.elevation)) ++
          BlimpMainAlgo.perform_action enc64
            (.SetServo (2 * i + 1) (wrap16 s.controls.yaw))
    else []
  | .StabilizeAttiAlti => []

/-- A value already in i32 range is unchanged by wrapping. -/
theorem wrap32_eq_self (v : Int) (h1 : -(2 ^ 31) ≤ v) (h2 : v < 2 ^ 31) :
    wrap32 v = v := by
  unfold wrap32
  omega

/-- A value already in i16 range is unchanged by the i16 cast. -/
theorem wrap16_eq_self (v : Int) (h1 : -(2 ^ 15) ≤ v) (h2 : v < 2 ^ 15) :
    wrap16 v = v := by
  unfold wrap16
  omega

/-- Unfolding of handle_event on a Control event. -/
theorem handle_event_control_eq (enc64 : ℝ → List Nat) (s : BlimpMainAlgo)
    (c : Controls) :
    BlimpMainAlgo.handle_event enc64 s (.Control c) = ({ s with controls := c }, []) := by
  simp [BlimpMainAlgo.handle_event]

/-- Unfolding of handle_event on a GetMsg event whose payload fails to decode. -/
theorem handle_event_getmsg_none_eq (enc64 : ℝ → List Nat) (s : BlimpMainAlgo)
    (bs : List Nat) (h : decodeG2B bs = none) :
    BlimpMainAlgo.handle_event enc64 s (.GetMsg bs) = (s, []) := by
  simp [BlimpMainAlgo.handle_event, h]

/-- Unfolding of handle_event on a GetMsg event decoding to Ping. -/
theorem handle_event_getmsg_ping_eq (enc64 : ℝ → List Nat) (s : BlimpMainAlgo)
    (bs : List Nat) (id : Nat) (h : decodeG2B bs = some (.Ping id)) :
    BlimpMainAlgo.handle_event enc64 s (.GetMsg bs) =
      (s, if s.action_callback then [.SendMsg (encodeB2G enc64 (.Pong id))] else []) := by
  simp [BlimpMainAlgo.handle_event, h]

/-- Unfolding of handle_event on a GetMsg event decoding to Pong. -/
theorem handle_event_getmsg_pong_eq (enc64 : ℝ → List Nat) (s : BlimpMainAlgo)
    (bs : List Nat) (id : Nat) (h : decodeG2B bs = some (.Pong id)) :
    BlimpMainAlgo.handle_event enc64 s (.GetMsg bs) = (s, []) := by
  simp [BlimpMainAlgo.handle_event, h]

/-- Unfolding of handle_event on a GetMsg event decoding to Control: the
source re-dispatches through handle_event itself. -/
theorem handle_event_getmsg_control_eq (enc64 : ℝ → List Nat) (s : BlimpMainAlgo)
    (bs : List Nat) (c : Controls) (h : decodeG2B bs = some (.Control c)) :
    BlimpMainAlgo.handle_event enc64 s (.GetMsg bs) =
      BlimpMainAlgo.handle_event enc64 s (.Control c) := by
  rw [handle_event_control_eq]
  simp [BlimpMainAlgo.handle_event, h]

/-- Unfolding of handle_event on a Barometer sample: the altitude estimate
is overwritten with the barometric formula and the event is echoed when a
callback is registered. -/
theorem handle_event_baro_eq (enc64 : ℝ → List Nat) (s : BlimpMainAlgo) (p : ℝ) :
    BlimpMainAlgo.handle_event enc64 s (.SensorDataF64 .Barometer p) =
      ({ s with altitude := some (baroAltitude p) },
       if s.action_callback then
         [.SendMsg (encodeB2G enc64 (.ForwardEvent (.SensorDataF64 .Barometer p)))]
       else []) := by
  simp [BlimpMainAlgo.handle_event]

/-- Unfolding of handle_event on a GPS latitude sample. -/
theorem handle_event_gpslat_eq (enc64 : ℝ → List Nat) (s : BlimpMainAlgo) (lat : ℝ) :
    BlimpMainAlgo.handle_event enc64 s (.SensorDataF64 .GPSLatitude lat) =
      ({ s with gps_location := some (lat, (s.gps_location.getD (0, 0)).2) },
       if s.action_callback then
         [.SendMsg (encodeB2G enc64 (.ForwardEvent (.SensorDataF64 .GPSLatitude lat)))]
       else []) := by
  simp [BlimpMainAlgo.handle_event]

/-- Unfolding of handle_event on a GPS longitude sample. -/
theorem handle_event_gpslon_eq (enc64 : ℝ → List Nat) (s : BlimpMainAlgo) (lon : ℝ) :
    BlimpMainAlgo.handle_event enc64 s (.SensorDataF64 .GPSLongitude lon) =
      ({ s with gps_location := some ((s.gps_location.getD (0, 0)).1, lon) },
       if s.action_callback then
         [.SendMsg (encodeB2G enc64 (.ForwardEvent (.SensorDataF64 .GPSLongitude lon)))]
       else []) := by
  simp [BlimpMainAlgo.handle_event]

/-- Unfolding of handle_event on a GPS altitude sample: no state change,
only the telemetry echo. -/
theorem handle_event_gpsalt_eq (enc64 : ℝ → List Nat) (s : BlimpMainAlgo) (x : ℝ) :
    BlimpMainAlgo.handle_event enc64 s (.SensorDataF64 .GPSAltitude x) =
      (s,
       if s.action_callback then
         [.SendMsg (encodeB2G enc64 (.ForwardEvent (.SensorDataF64 .GPSAltitude x)))]
       else []) := by
  simp [BlimpMainAlgo.handle_event]

/-- The full emission list of one step() call in Manual mode with a
registered callback, with the wrapping i32/i16 arithmetic explicit. -/
theorem step_manual_eq (enc64 : ℝ → List Nat) (s : BlimpMainAlgo)
    (hcb : s.action_callback = true) (hm : s.curr_flight_mode = .Manual) :
    BlimpMainAlgo.step enc64 s =
      [.SetMotor 0 (wrap32 (s.controls.throttle + s.controls.yaw + s.controls.elevation)),
       .SendMsg (encodeB2G enc64 (.ForwardAction
         (.SetMotor 0 (wrap32 (s.controls.throttle + s.controls.yaw + s.controls.elevation))))),
       .SetServo 0 (wrap16 s.controls.elevation),
       .SendMsg (encodeB2G enc64 (.ForwardAction (.SetServo 0 (wrap16 s.controls.elevation)))),
       .SetServo 1 (wrap16 s.controls.yaw),
       .SendMsg (encodeB2G enc64 (.ForwardAction (.SetServo 1 (wrap16 s.controls.yaw)))),
       .SetMotor 1 (wrap32 (s.controls.throttle - s.controls.yaw + s.controls.elevation)),
       .SendMsg (encodeB2G enc64 (.ForwardAction
         (.SetMotor 1 (wrap32 (s.controls.throttle - s.controls.yaw + s.controls.elevation))))),
       .SetServo 2 (wrap16 s.controls.elevation),
       .SendMsg (encodeB2G enc64 (.ForwardAction (.SetServo 2 (wrap16 s.controls.elevation)))),
       .SetServo 3 (wrap16 s.controls.yaw),
       .SendMsg (encodeB2G enc64 (.ForwardAction (.SetServo 3 (wrap16 s.controls.yaw)))),
       .SetMotor 2 (wrap32 (s.controls.throttle + s.controls.yaw + s.controls.elevation)),
       .SendMsg (encodeB2G enc64 (.ForwardAction
         (.SetMotor 2 (wrap32 (s.controls.throttle + s.controls.yaw + s.controls.elevation))))),
       .SetServo 4 (wrap16 s.controls.elevation),
       .SendMsg (encodeB2G enc64 (.ForwardAction (.SetServo 4 (wrap16 s.controls.elevation)))),
       .SetServo 5 (wrap16 s.controls.yaw),
       .SendMsg (encodeB2G enc64 (.ForwardAction (.SetServo 5 (wrap16 s.controls.yaw)))),
       .SetMotor 3 (wrap32 (s.controls.throttle - s.controls.yaw + s.controls.elevation)),
       .SendMsg (encodeB2G enc64 (.ForwardAction
         (.SetMotor 3 (wrap32 (s.controls.throttle - s.controls.yaw + s.controls.elevation))))),
       .SetServo 6 (wrap16 s.controls.elevation),
       .SendMsg (encodeB2G enc64 (.ForwardAction (.SetServo 6 (wrap16 s.controls.elevation)))),
       .SetServo 7 (wrap16 s.controls.yaw),
       .SendMsg (encodeB2G enc64 (.ForwardAction (.SetServo 7 (wrap16 s.controls.yaw))))] := by
  simp [BlimpMainAlgo.step, hm, hcb, BlimpMainAlgo.perform_action, List.range_succ,
    sub_eq_add_neg]

/-- Any value returned by the varint decoding loop is below the target
width's modulus. -/
theorem decVarintAux_some_lt (maxI lastMax M : Nat) (hM : 0 < M) :
    ∀ (bs : List Nat) (i acc n : Nat) (r : List Nat),
      decVarintAux maxI lastMax M i acc bs = some (n, r) → n < M := by
  intro bs
  induction bs with
  | nil =>
    intro i acc n r h
    simp [decVarintAux] at h
  | cons b rest ih =>
    intro i acc n r h
    simp only [decVarintAux] at h
    split at h
    · split at h
      · exact absurd h (by simp)
      · simp only [Option.some.injEq, Prod.mk.injEq] at h
        obtain ⟨h1, h2⟩ := h
        subst h1
        exact Nat.mod_lt _ hM
    · split at h
      · exact absurd h (by simp)
      · exact ih _ _ _ _ h

/-- The u32 varint decoding loop inverts the varint encoding, at any byte
position i of the loop and with any trailing bytes. -/
theorem decVarintAux_encVarint (n : Nat) :
    ∀ (i acc : Nat) (rest : List Nat), i ≤ 4 → acc < 2 ^ (7 * i) → n < 2 ^ (32 - 7 * i) →
      decVarintAux 5 15 (2 ^ 32) i acc (encVarint n ++ rest) =
        some (acc + n * 2 ^ (7 * i), rest) := by
  induction n using Nat.strong_induction_on with
  | _ n ih =>
    intro i acc rest hi hacc hn
    rw [encVarint]
    by_cases h : n < 128
    · rw [dif_pos h]
      simp only [List.cons_append, List.nil_append, decVarintAux]
      interval_cases i <;> simp_all <;> omega
    · rw [dif_neg h]
      simp only [List.cons_append, decVarintAux]
      interval_cases i <;> simp_all <;>
        first
          | omega
          | (rw [ih (n / 128) (Nat.div_lt_self (by omega) (by omega)) _ _ rest
                (by omega) (by omega) (by omega)]
             simp
             omega)

/-- u32 varint round trip: decoding the encoding of any u32 value gives the
value back and consumes the whole buffer. -/
theorem decU32_encVarint (n : Nat) (h : n < 2 ^ 32) :
    decU32 (encVarint n) = some (n, []) := by
  have h2 := decVarintAux_encVarint n 0 0 [] (by omega) (by norm_num) (by simpa using h)
  simpa [decU32] using h2

/-- A Ping id obtained from decoding a MessageG2B is a u32 value. -/
theorem decodeG2B_ping_lt (bs : List Nat) (id : Nat)
    (h : decodeG2B bs = some (.Ping id)) : id < 2 ^ 32 := by
  unfold decodeG2B at h
  rcases hfull : decodeG2Bfull bs with _ | ⟨m, r⟩ <;> rw [hfull] at h
  · simp at h
  · simp at h
    subst h
    unfold decodeG2Bfull at hfull
    split at hfull
    · simp at hfull
    · obtain ⟨⟨v, r2⟩, h2, h3⟩ := Option.map_eq_some'.mp hfull
      simp only [Prod.mk.injEq, MessageG2B.Ping.injEq] at h3
      obtain ⟨hv, _⟩ := h3
      subst hv
      unfold decU32 at h2
      exact decVarintAux_some_lt 5 15 (2 ^ 32) (by norm_num) _ 0 0 v r2 h2
    · obtain ⟨⟨v, r2⟩, h2, h3⟩ := Option.map_eq_some'.mp hfull
      simp at h3
    · obtain ⟨⟨c, r2⟩, h2, h3⟩ := Option.map_eq_some'.mp hfull
      simp at h3
    · simp at hfull

/-- Decoding the encoding of an outbound Pong message gives the Pong back,
for every u32 id and any f64 codec. -/
theorem decodeB2G_enc_pong (dec64 : List Nat → Option (ℝ × List Nat))
    (enc64 : ℝ → List Nat) (id : Nat) (h : id < 2 ^ 32) :
    decodeB2G dec64 (encodeB2G enc64 (.Pong id)) = some (.Pong id) := by
  have h1 : decU32 (1 :: encVarint id) = some (1, encVarint id) := by
    simp [decU32, decVarintAux]
  simp [decodeB2G, decodeB2Gfull, encodeB2G, h1, decU32_encVarint id h]

/-- C3: every SensorDataF64 event (any of the four sensor tags, including
the otherwise-unhandled GPSAltitude tag) makes handle_event emit, after its
state update, exactly one SendMsg carrying the encoded ForwardEvent of the
event when a callback is registered; Control and GetMsg events produce no
ForwardEvent message. -/
theorem sensor_forward_event_echo (enc64 : ℝ → List Nat) (s : BlimpMainAlgo)
    (t : SensorType) (x : ℝ) (hcb : s.action_callback = true) :
    (BlimpMainAlgo.handle_event enc64 s (.SensorDataF64 t x)).2 =
        [.SendMsg (encodeB2G enc64 (.ForwardEvent (.SensorDataF64 t x)))] ∧
      (∀ c : Controls, (BlimpMainAlgo.handle_event enc64 s (.Control c)).2 = []) ∧
      (∀ (bs : List Nat) (a : BlimpAction),
        a ∈ (BlimpMainAlgo.handle_event enc64 s (.GetMsg bs)).2 →
        ∀ e : BlimpEvent, a ≠ .SendMsg (encodeB2G enc64 (.ForwardEvent e))) := by
  refine ⟨?_, ?_, ?_⟩
  · cases t
    · rw [handle_event_baro_eq]; simp [hcb]
    · rw [handle_event_gpslat_eq]; simp [hcb]
    · rw [handle_event_gpslon_eq]; simp [hcb]
    · rw [handle_event_gpsalt_eq]; simp [hcb]
  · intro c
    rw [handle_event_control_eq]
  · intro bs a hmem e
    rcases hd : decodeG2B bs with _ | m
    · rw [handle_event_getmsg_none_eq enc64 s bs hd] at hmem
      simp at hmem
    · cases m with
      | Ping id =>
        rw [handle_event_getmsg_ping_eq enc64 s bs id hd, hcb] at hmem
        simp at hmem
        subst hmem
        simp [encodeB2G]
      | Pong id =>
        rw [handle_event_getmsg_pong_eq enc64 s bs id hd] at hmem
        simp at hmem
      | Control c =>
        rw [handle_event_getmsg_control_eq enc64 s bs c hd, handle_event_control_eq] at hmem
        simp at hmem

/-- Witness for C3 at a registered callback, the GPSAltitude tag and
value 0. -/
theorem sensor_forward_event_echo_witness :
    (⟨true, .Manual, ⟨0, 0, 0⟩, none, none⟩ : BlimpMainAlgo).action_callback = true ∧
      ((BlimpMainAlgo.handle_event (fun _ => []) ⟨true, .Manual, ⟨0, 0, 0⟩, none, none⟩
            (.SensorDataF64 .GPSAltitude 0)).2 =
          [.SendMsg (encodeB2G (fun _ => [])
            (.ForwardEvent (.SensorDataF64 .GPSAltitude 0)))] ∧
        (∀ c : Controls,
          (BlimpMainAlgo.handle_event (fun _ => []) ⟨true, .Manual, ⟨0, 0, 0⟩, none, none⟩
              (.Control c)).2 = []) ∧
        (∀ (bs : List Nat) (a : BlimpAction),
          a ∈ (BlimpMainAlgo.handle_event (fun _ => []) ⟨true, .Manual, ⟨0, 0, 0⟩, none, none⟩
              (.GetMsg bs)).2 →
          ∀ e : BlimpEvent, a ≠ .SendMsg (encodeB2G (fun _ => []) (.ForwardEvent e)))) :=
  ⟨rfl,
   sensor_forward_event_echo (fun _ => []) ⟨true, .Manual, ⟨0, 0, 0⟩, none, none⟩
     .GPSAltitude 0 rfl⟩

/-- C4: a GetMsg whose byte buffer fails to decode as a MessageG2B leaves
the whole controller state (stored Controls, altitude estimate, GPS
location, flight mode, callback registration) unchanged and invokes the
egress callback zero times. -/
theorem getmsg_decode_failure_noop (enc64 : ℝ → List Nat) (s : BlimpMainAlgo)
    (bs : List Nat) (h : decodeG2B bs = none) :
    BlimpMainAlgo.handle_event enc64 s (.GetMsg bs) = (s, []) :=
  handle_event_getmsg_none_eq enc64 s bs h

/-- Witness for C4 at the undecodable buffer [5] (bad variant index). -/
theorem getmsg_decode_failure_noop_witness :
    decodeG2B [5] = none ∧
      BlimpMainAlgo.handle_event (fun _ => []) BlimpMainAlgo.new (.GetMsg [5]) =
        (BlimpMainAlgo.new, []) :=
  ⟨by decide, getmsg_decode_failure_noop (fun _ => []) BlimpMainAlgo.new [5] (by decide)⟩

/-- C5 (evaluation at the failing input): a non-positive barometer sample
is neither rejected nor marked invalid; the barometric formula is applied
to it unconditionally and the previous altitude estimate (some 100) is
silently overwritten with the formula's value at -1 — in the source's f64
arithmetic, ln of a negative number, i.e. NaN. -/
theorem baro_nonpositive_sample_overwrites :
    (BlimpMainAlgo.handle_event (fun _ => [])
        ⟨true, .Manual, ⟨0, 0, 0⟩, some 100, none⟩
        (.SensorDataF64 .Barometer (-1))).1.altitude = some (baroAltitude (-1)) := by
  rw [handle_event_baro_eq]

/-- C6: a GetMsg whose payload decodes to MessageG2B.Control c behaves
exactly like a direct top-level Control c event, within the same
invocation: the stored Controls are replaced by c verbatim, everything else
is unchanged, and nothing is emitted. -/
theorem getmsg_control_redispatch (enc64 : ℝ → List Nat) (s : BlimpMainAlgo)
    (bs : List Nat) (c : Controls) (h : decodeG2B bs = some (.Control c)) :
    BlimpMainAlgo.handle_event enc64 s (.GetMsg bs) =
        BlimpMainAlgo.handle_event enc64 s (.Control c) ∧
      BlimpMainAlgo.handle_event enc64 s (.Control c) = ({ s with controls := c }, []) :=
  ⟨handle_event_getmsg_control_eq enc64 s bs c h, handle_event_control_eq enc64 s c⟩

/-- Witness for C6 at the buffer [2, 2, 4, 6], the postcard encoding of
Control with throttle 1, elevation 2, yaw 3. -/
theorem getmsg_control_redispatch_witness :
    decodeG2B [2, 2, 4, 6] = some (.Control ⟨1, 2, 3⟩) ∧
      (BlimpMainAlgo.handle_event (fun _ => []) BlimpMainAlgo.new (.GetMsg [2, 2, 4, 6]) =
          BlimpMainAlgo.handle_event (fun _ => []) BlimpMainAlgo.new (.Control ⟨1, 2, 3⟩) ∧
        BlimpMainAlgo.handle_event (fun _ => []) BlimpMainAlgo.new (.Control ⟨1, 2, 3⟩) =
          ({ BlimpMainAlgo.new with controls := ⟨1, 2, 3⟩ }, [])) :=
  ⟨by decide,
   getmsg_control_redispatch (fun _ => []) BlimpMainAlgo.new [2, 2, 4, 6] ⟨1, 2, 3⟩
     (by decide)⟩

/-- C7: a GPSLatitude sample sets the stored pair's latitude preserving the
longitude (0 when the pair was absent), symmetrically for GPSLongitude;
from an absent pair, latitude 10 then longitude 20 reads (10, 20), and
latitude 10 alone reads (10, 0). -/
theorem gps_partial_update (enc64 : ℝ → List Nat) (s : BlimpMainAlgo)
    (h : s.gps_location = none) :
    (∀ (s2 : BlimpMainAlgo) (lat : ℝ),
        (BlimpMainAlgo.handle_event enc64 s2 (.SensorDataF64 .GPSLatitude lat)).1.gps_location =
          some (lat, (s2.gps_location.getD (0, 0)).2)) ∧
      (∀ (s2 : BlimpMainAlgo) (lon : ℝ),
        (BlimpMainAlgo.handle_event enc64 s2 (.SensorDataF64 .GPSLongitude lon)).1.gps_location =
          some ((s2.gps_location.getD (0, 0)).1, lon)) ∧
      (BlimpMainAlgo.handle_event enc64
          (BlimpMainAlgo.handle_event enc64 s (.SensorDataF64 .GPSLatitude 10)).1
          (.SensorDataF64 .GPSLongitude 20)).1.gps_location = some (10, 20) ∧
      (BlimpMainAlgo.handle_event enc64 s (.SensorDataF64 .GPSLatitude 10)).1.gps_location =
        some (10, 0) := by
  refine ⟨?_, ?_, ?_, ?_⟩
  · intro s2 lat
    rw [handle_event_gpslat_eq]
  · intro s2 lon
    rw [handle_event_gpslon_eq]
  · simp [handle_event_gpslat_eq, handle_event_gpslon_eq, h]
  · simp [handle_event_gpslat_eq, h]

/-- Witness for C7 starting from the freshly constructed state, whose GPS
pair is absent. -/
theorem gps_partial_update_witness :
    BlimpMainAlgo.new.gps_location = none ∧
      ((∀ (s2 : BlimpMainAlgo) (lat : ℝ),
          (BlimpMainAlgo.handle_event (fun _ => []) s2
              (.SensorDataF64 .GPSLatitude lat)).1.gps_location =
            some (lat, (s2.gps_location.getD (0, 0)).2)) ∧
        (∀ (s2 : BlimpMainAlgo) (lon : ℝ),
          (BlimpMainAlgo.handle_event (fun _ => []) s2
              (.SensorDataF64 .GPSLongitude lon)).1.gps_location =
            some ((s2.gps_location.getD (0, 0)).1, lon)) ∧
        (BlimpMainAlgo.handle_event (fun _ => [])
            (BlimpMainAlgo.handle_event (fun _ => []) BlimpMainAlgo.new
              (.SensorDataF64 .GPSLatitude 10)).1
            (.SensorDataF64 .GPSLongitude 20)).1.gps_location = some (10, 20) ∧
        (BlimpMainAlgo.handle_event (fun _ => []) BlimpMainAlgo.new
            (.SensorDataF64 .GPSLatitude 10)).1.gps_location = some (10, 0)) :=
  ⟨rfl, gps_partial_update (fun _ => []) BlimpMainAlgo.new rfl⟩

/-- C8: a GetMsg decoding to Ping id emits, with a registered callback,
exactly one SendMsg whose payload decodes back to Pong id, and changes no
controller state; a GetMsg decoding to Pong produces no emission and no
state change. -/
theorem getmsg_ping_pong (enc64 : ℝ → List Nat) (dec64 : List Nat → Option (ℝ × List Nat))
    (s : BlimpMainAlgo) (bs bs2 : List Nat) (id id2 : Nat)
    (hcb : s.action_callback = true)
    (h : decodeG2B bs = some (.Ping id)) (h2 : decodeG2B bs2 = some (.Pong id2)) :
    BlimpMainAlgo.handle_event enc64 s (.GetMsg bs) =
        (s, [.SendMsg (encodeB2G enc64 (.Pong id))]) ∧
      decodeB2G dec64 (encodeB2G enc64 (.Pong id)) = some (.Pong id) ∧
      BlimpMainAlgo.handle_event enc64 s (.GetMsg bs2) = (s, []) := by
  refine ⟨?_, ?_, handle_event_getmsg_pong_eq enc64 s bs2 id2 h2⟩
  · rw [handle_event_getmsg_ping_eq enc64 s bs id h, hcb]
    simp
  · exact decodeB2G_enc_pong dec64 enc64 id (decodeG2B_ping_lt bs id h)

/-- Witness for C8 at the buffers [0, 7] (Ping 7) and [1, 3] (Pong 3). -/
theorem getmsg_ping_pong_witness :
    (⟨true, .Manual, ⟨0, 0, 0⟩, none, none⟩ : BlimpMainAlgo).action_callback = true ∧
      decodeG2B [0, 7] = some (.Ping 7) ∧ decodeG2B [1, 3] = some (.Pong 3) ∧
      (BlimpMainAlgo.handle_event (fun _ => []) ⟨true, .Manual, ⟨0, 0, 0⟩, none, none⟩
            (.GetMsg [0, 7]) =
          (⟨true, .Manual, ⟨0, 0, 0⟩, none, none⟩,
           [.SendMsg (encodeB2G (fun _ => []) (.Pong 7))]) ∧
        decodeB2G (fun _ => none) (encodeB2G (fun _ => []) (.Pong 7)) = some (.Pong 7) ∧
        BlimpMainAlgo.handle_event (fun _ => []) ⟨true, .Manual, ⟨0, 0, 0⟩, none, none⟩
            (.GetMsg [1, 3]) =
          (⟨true, .Manual, ⟨0, 0, 0⟩, none, none⟩, [])) :=
  ⟨rfl, by decide, by decide,
   getmsg_ping_pong (fun _ => []) (fun _ => none) ⟨true, .Manual, ⟨0, 0, 0⟩, none, none⟩
     [0, 7] [1, 3] 7 3 rfl (by decide) (by decide)⟩

/-- C9: a Barometer sample with positive pressure p sets the altitude
estimate to (ln 101325 - ln p) * 0.0292718 * 288.15; the altitude at
p = 101325 is exactly 0 and the altitude is strictly decreasing in p. -/
theorem baro_altitude_formula (enc64 : ℝ → List Nat) (s : BlimpMainAlgo) (p p1 p2 : ℝ)
    (_hp : 0 < p) (hp1 : 0 < p1) (h12 : p1 < p2) :
    (BlimpMainAlgo.handle_event enc64 s (.SensorDataF64 .Barometer p)).1.altitude =
        some ((Real.log 101325.0 - Real.log p) * 0.0292718 * 288.15) ∧
      baroAltitude 101325.0 = 0 ∧
      baroAltitude p2 < baroAltitude p1 := by
  refine ⟨?_, ?_, ?_⟩
  · rw [handle_event_baro_eq]
    simp [baroAltitude]
  · simp [baroAltitude]
  · unfold baroAltitude
    have hlog : Real.log p1 < Real.log p2 := Real.log_lt_log hp1 h12
    have hc : (0:ℝ) < 0.0292718 := by norm_num
    have hT : (0:ℝ) < 288.15 := by norm_num
    exact mul_lt_mul_of_pos_right (mul_lt_mul_of_pos_right (by linarith) hc) hT

/-- Witness for C9 at pressures 1 and the pair 1 < 2. -/
theorem baro_altitude_formula_witness :
    (0:ℝ) < 1 ∧ (1:ℝ) < 2 ∧
      ((BlimpMainAlgo.handle_event (fun _ => []) BlimpMainAlgo.new
            (.SensorDataF64 .Barometer 1)).1.altitude =
          some ((Real.log 101325.0 - Real.log 1) * 0.0292718 * 288.15) ∧
        baroAltitude 101325.0 = 0 ∧ baroAltitude 2 < baroAltitude 1) :=
  ⟨one_pos, one_lt_two,
   baro_altitude_formula (fun _ => []) BlimpMainAlgo.new 1 1 2 one_pos one_pos one_lt_two⟩

/-- C1 counterexample: for the stored Controls with throttle 2147483647,
elevation 1, yaw 0 (each a valid i32), the first action emitted by step in
Manual mode carries the wrapped i32 speed -2147483648, not the exact sum
2147483647 + 1 * 0 + 1 = 2147483648 that the claim's formula prescribes. -/
theorem step_manual_overflow_cex :
    (BlimpMainAlgo.step (fun _ => [])
          ⟨true, .Manual, ⟨2147483647, 1, 0⟩, none, none⟩).head? =
        some (.SetMotor 0 (-2147483648)) ∧
      ((-2147483648 : Int) ≠ 2147483647 + 1 * 0 + 1) :=
  ⟨by decide, by decide⟩

/-- C1 (amended): in Manual mode with a registered callback, step emits for
each motor index i the speed as the wrapping i32 sum
wrap32(throttle + (1 if i even else -1) * yaw + elevation) — equal to the
exact sum whenever it fits in i32 — and for Controls with throttle 50,
elevation 10, yaw 5 the motor speeds are 65, 55, 65, 55, servo 0 gets
location 10 and servo 1 gets location 5. -/
theorem step_manual_mapping (enc64 : ℝ → List Nat) (s : BlimpMainAlgo)
    (hcb : s.action_callback = true) (hm : s.curr_flight_mode = .Manual) :
    BlimpMainAlgo.step enc64 s =
        [.SetMotor 0 (wrap32 (s.controls.throttle + s.controls.yaw + s.controls.elevation)),
         .SendMsg (encodeB2G enc64 (.ForwardAction
           (.SetMotor 0 (wrap32 (s.controls.throttle + s.controls.yaw + s.controls.elevation))))),
         .SetServo 0 (wrap16 s.controls.elevation),
         .SendMsg (encodeB2G enc64 (.ForwardAction (.SetServo 0 (wrap16 s.controls.elevation)))),
         .SetServo 1 (wrap16 s.controls.yaw),
         .SendMsg (encodeB2G enc64 (.ForwardAction (.SetServo 1 (wrap16 s.controls.yaw)))),
         .SetMotor 1 (wrap32 (s.controls.throttle - s.controls.yaw + s.controls.elevation)),
         .SendMsg (encodeB2G enc64 (.ForwardAction
           (.SetMotor 1 (wrap32 (s.controls.throttle - s.controls.yaw + s.controls.elevation))))),
         .SetServo 2 (wrap16 s.controls.elevation),
         .SendMsg (encodeB2G enc64 (.ForwardAction (.SetServo 2 (wrap16 s.controls.elevation)))),
         .SetServo 3 (wrap16 s.controls.yaw),
         .SendMsg (encodeB2G enc64 (.ForwardAction (.SetServo 3 (wrap16 s.controls.yaw)))),
         .SetMotor 2 (wrap32 (s.controls.throttle + s.controls.yaw + s.controls.elevation)),
         .SendMsg (encodeB2G enc64 (.ForwardAction
           (.SetMotor 2 (wrap32 (s.controls.throttle + s.controls.yaw + s.controls.elevation))))),
         .SetServo 4 (wrap16 s.controls.elevation),
         .SendMsg (encodeB2G enc64 (.ForwardAction (.SetServo 4 (wrap16 s.controls.elevation)))),
         .SetServo 5 (wrap16 s.controls.yaw),
         .SendMsg (encodeB2G enc64 (.ForwardAction (.SetServo 5 (wrap16 s.controls.yaw)))),
         .SetMotor 3 (wrap32 (s.controls.throttle - s.controls.yaw + s.controls.elevation)),
         .SendMsg (encodeB2G enc64 (.ForwardAction
           (.SetMotor 3 (wrap32 (s.controls.throttle - s.controls.yaw + s.controls.elevation))))),
         .SetServo 6 (wrap16 s.controls.elevation),
         .SendMsg (encodeB2G enc64 (.ForwardAction (.SetServo 6 (wrap16 s.controls.elevation)))),
         .SetServo 7 (wrap16 s.controls.yaw),
         .SendMsg (encodeB2G enc64 (.ForwardAction (.SetServo 7 (wrap16 s.controls.yaw))))] ∧
      (∀ v : Int, -(2 ^ 31) ≤ v → v < 2 ^ 31 → wrap32 v = v) ∧
      BlimpMainAlgo.step enc64 ⟨true, .Manual, ⟨50, 10, 5⟩, none, none⟩ =
        [.SetMotor 0 65, .SendMsg (encodeB2G enc64 (.ForwardAction (.SetMotor 0 65))),
         .SetServo 0 10, .SendMsg (encodeB2G enc64 (.ForwardAction (.SetServo 0 10))),
         .SetServo 1 5, .SendMsg (encodeB2G enc64 (.ForwardAction (.SetServo 1 5))),
         .SetMotor 1 55, .SendMsg (encodeB2G enc64 (.ForwardAction (.SetMotor 1 55))),
         .SetServo 2 10, .SendMsg (encodeB2G enc64 (.ForwardAction (.SetServo 2 10))),
         .SetServo 3 5, .SendMsg (encodeB2G enc64 (.ForwardAction (.SetServo 3 5))),
         .SetMotor 2 65, .SendMsg (encodeB2G enc64 (.ForwardAction (.SetMotor 2 65))),
         .SetServo 4 10, .SendMsg (encodeB2G enc64 (.ForwardAction (.SetServo 4 10))),
         .SetServo 5 5, .SendMsg (encodeB2G enc64 (.ForwardAction (.SetServo 5 5))),
         .SetMotor 3 55, .SendMsg (encodeB2G enc64 (.ForwardAction (.SetMotor 3 55))),
         .SetServo 6 10, .SendMsg (encodeB2G enc64 (.ForwardAction (.SetServo 6 10))),
         .SetServo 7 5, .SendMsg (encodeB2G enc64 (.ForwardAction (.SetServo 7 5)))] := by
  refine ⟨step_manual_eq enc64 s hcb hm, fun v h1 h2 => wrap32_eq_self v h1 h2, ?_⟩
  rw [step_manual_eq enc64 _ rfl rfl]
  norm_num [wrap32, wrap16]

/-- Witness for C1 (amended) at the spec's concrete example state. -/
theorem step_manual_mapping_witness :
    (⟨true, .Manual, ⟨50, 10, 5⟩, none, none⟩ : BlimpMainAlgo).action_callback = true ∧
      (⟨true, .Manual, ⟨50, 10, 5⟩, none, none⟩ : BlimpMainAlgo).curr_flight_mode = .Manual ∧
      (BlimpMainAlgo.step (fun _ => []) ⟨true, .Manual, ⟨50, 10, 5⟩, none, none⟩).head? =
        some (.SetMotor 0 65) :=
  ⟨rfl, rfl, by
    rw [(step_manual_mapping (fun _ => []) ⟨true, .Manual, ⟨50, 10, 5⟩, none, none⟩
      rfl rfl).2.2]
    rfl⟩

/-- C2: in Manual mode with a registered callback and controls within
range, one step call emits exactly these 24 actions: motor indices in
ascending order, within each index motor before vertical servo (2i,
elevation) before lateral servo (2i+1, yaw), every actuator action
immediately followed by exactly one SendMsg carrying the encoded
ForwardAction, and no ForwardAction message for a non-actuator action. -/
theorem step_manual_emission_order (enc64 : ℝ → List Nat) (s : BlimpMainAlgo)
    (t e y : Int)
    (hcb : s.action_callback = true) (hm : s.curr_flight_mode = .Manual)
    (hc : s.controls = ⟨t, e, y⟩)
    (h1 : -(2 ^ 31) ≤ t + y + e) (h2 : t + y + e < 2 ^ 31)
    (h3 : -(2 ^ 31) ≤ t - y + e) (h4 : t - y + e < 2 ^ 31)
    (h5 : -(2 ^ 15) ≤ e) (h6 : e < 2 ^ 15) (h7 : -(2 ^ 15) ≤ y) (h8 : y < 2 ^ 15) :
    BlimpMainAlgo.step enc64 s =
        [.SetMotor 0 (t + y + e),
         .SendMsg (encodeB2G enc64 (.ForwardAction (.SetMotor 0 (t + y + e)))),
         .SetServo 0 e, .SendMsg (encodeB2G enc64 (.ForwardAction (.SetServo 0 e))),
         .SetServo 1 y, .SendMsg (encodeB2G enc64 (.ForwardAction (.SetServo 1 y))),
         .SetMotor 1 (t - y + e),
         .SendMsg (encodeB2G enc64 (.ForwardAction (.SetMotor 1 (t - y + e)))),
         .SetServo 2 e, .SendMsg (encodeB2G enc64 (.ForwardAction (.SetServo 2 e))),
         .SetServo 3 y, .SendMsg (encodeB2G enc64 (.ForwardAction (.SetServo 3 y))),
         .SetMotor 2 (t + y + e),
         .SendMsg (encodeB2G enc64 (.ForwardAction (.SetMotor 2 (t + y + e)))),
         .SetServo 4 e, .SendMsg (encodeB2G enc64 (.ForwardAction (.SetServo 4 e))),
         .SetServo 5 y, .SendMsg (encodeB2G enc64 (.ForwardAction (.SetServo 5 y))),
         .SetMotor 3 (t - y + e),
         .SendMsg (encodeB2G enc64 (.ForwardAction (.SetMotor 3 (t - y + e)))),
         .SetServo 6 e, .SendMsg (encodeB2G enc64 (.ForwardAction (.SetServo 6 e))),
         .SetServo 7 y, .SendMsg (encodeB2G enc64 (.ForwardAction (.SetServo 7 y)))] ∧
      (BlimpMainAlgo.step enc64 s).length = 24 ∧
      (∀ v : List Nat, BlimpMainAlgo.perform_action enc64 (.SendMsg v) = [.SendMsg v]) := by
  have hlist : BlimpMainAlgo.step enc64 s =
      [.SetMotor 0 (t + y + e),
       .SendMsg (encodeB2G enc64 (.ForwardAction (.SetMotor 0 (t + y + e)))),
       .SetServo 0 e, .SendMsg (encodeB2G enc64 (.ForwardAction (.SetServo 0 e))),
       .SetServo 1 y, .SendMsg (encodeB2G enc64 (.ForwardAction (.SetServo 1 y))),
       .SetMotor 1 (t - y + e),
       .SendMsg (encodeB2G enc64 (.ForwardAction (.SetMotor 1 (t - y + e)))),
       .SetServo 2 e, .SendMsg (encodeB2G enc64 (.ForwardAction (.SetServo 2 e))),
       .SetServo 3 y, .SendMsg (encodeB2G enc64 (.ForwardAction (.SetServo 3 y))),
       .SetMotor 2 (t + y + e),
       .SendMsg (encodeB2G enc64 (.ForwardAction (.SetMotor 2 (t + y + e)))),
       .SetServo 4 e, .SendMsg (encodeB2G enc64 (.ForwardAction (.SetServo 4 e))),
       .SetServo 5 y, .SendMsg (encodeB2G enc64 (.ForwardAction (.SetServo 5 y))),
       .SetMotor 3 (t - y + e),
       .SendMsg (encodeB2G enc64 (.ForwardAction (.SetMotor 3 (t - y + e)))),
       .SetServo 6 e, .SendMsg (encodeB2G enc64 (.ForwardAction (.SetServo 6 e))),
       .SetServo 7 y, .SendMsg (encodeB2G enc64 (.ForwardAction (.SetServo 7 y)))] := by
    rw [step_manual_eq enc64 s hcb hm]
    simp only [hc]
    rw [wrap32_eq_self _ h1 h2, wrap32_eq_self _ h3 h4,
      wrap16_eq_self _ h5 h6, wrap16_eq_self _ h7 h8]
  exact ⟨hlist, by rw [hlist]; rfl, fun v => rfl⟩

/-- Witness for C2 at the spec's concrete example controls (50, 10, 5). -/
theorem step_manual_emission_order_witness :
    (⟨true, .Manual, ⟨50, 10, 5⟩, none, none⟩ : BlimpMainAlgo).action_callback = true ∧
      (BlimpMainAlgo.step (fun _ => []) ⟨true, .Manual, ⟨50, 10, 5⟩, none, none⟩).length = 24 :=
  ⟨rfl,
   (step_manual_emission_order (fun _ => []) ⟨true, .Manual, ⟨50, 10, 5⟩, none, none⟩
      50 10 5 rfl rfl rfl (by decide) (by decide) (by decide) (by decide)
      (by decide) (by decide) (by decide) (by decide)).2.1⟩

/-- C10 (implicit): in Manual mode every emitted SetServo location is the
stored i32 elevation (even servo index) or yaw (odd servo index) put
through Rust's truncating i16 cast — reduction modulo 2 to the 16 and
signed reinterpretation, wrap16 — and wrap16 moves every value lying
outside the i16 range, so such controls emit a location different from the
stored value. -/
theorem step_servo_location_truncated (enc64 : ℝ → List Nat) (s : BlimpMainAlgo)
    (hcb : s.action_callback = true) (hm : s.curr_flight_mode = .Manual) :
    (∀ (sv : Nat) (loc : Int), BlimpAction.SetServo sv loc ∈ BlimpMainAlgo.step enc64 s →
        (sv % 2 = 0 ∧ loc = wrap16 s.controls.elevation) ∨
          (sv % 2 = 1 ∧ loc = wrap16 s.controls.yaw)) ∧
      (∀ v : Int, v < -(2 ^ 15) ∨ 2 ^ 15 ≤ v → wrap16 v ≠ v) := by
  constructor
  · intro sv loc hmem
    rw [step_manual_eq enc64 s hcb hm] at hmem
    simp only [List.mem_cons, List.not_mem_nil, or_false] at hmem
    rcases hmem with h|h|h|h|h|h|h|h|h|h|h|h|h|h|h|h|h|h|h|h|h|h|h|h <;>
      simp at h <;> (rcases h with ⟨rfl, rfl⟩; norm_num)
  · intro v hv
    unfold wrap16
    omega

/-- Witness for C10 at controls with yaw 40000, outside the i16 range. -/
theorem step_servo_location_truncated_witness :
    (⟨true, .Manual, ⟨50, 10, 40000⟩, none, none⟩ : BlimpMainAlgo).action_callback = true ∧
      ((∀ (sv : Nat) (loc : Int),
          BlimpAction.SetServo sv loc ∈
              BlimpMainAlgo.step (fun _ => []) ⟨true, .Manual, ⟨50, 10, 40000⟩, none, none⟩ →
            (sv % 2 = 0 ∧
                loc = wrap16 (⟨true, .Manual, ⟨50, 10, 40000⟩, none, none⟩ :
                  BlimpMainAlgo).controls.elevation) ∨
              (sv % 2 = 1 ∧
                loc = wrap16 (⟨true, .Manual, ⟨50, 10, 40000⟩, none, none⟩ :
                  BlimpMainAlgo).controls.yaw)) ∧
        ∀ v : Int, v < -(2 ^ 15) ∨ 2 ^ 15 ≤ v → wrap16 v ≠ v) :=
  ⟨rfl,
   step_servo_location_truncated (fun _ => []) ⟨true, .Manual, ⟨50, 10, 40000⟩, none, none⟩
     rfl rfl⟩
